import Mathlib

/-!
Shallow embedding of the kineapp clinic-management program (src/main.py):
the record store (three SQLite tables with ON DELETE CASCADE), the
query cache (st.cache_data with ttl=10, cleared by clear_caches), the
aggregation engine (progression_traitement) and the hierarchical
selection state (_go_to, render_patients / render_traitements /
render_seances).  Python ints are modelled as Int/Nat, SQLite REAL
amounts as ℚ, and text columns as String.
-/

namespace Kine

/-- Row of the `patients` table (src/main.py, init_db). -/
structure Patient where
  id : Nat
  nom : String
  prenom : String
  cin : String
  date_naissance : String
  telephone : String
  email : String
  adresse : String
  notes : String
  created_at : String
deriving DecidableEq

/-- Row of the `traitements` table (src/main.py, init_db).
`tarif_par_seance` is a SQLite REAL, modelled exactly as ℚ. -/
structure Traitement where
  id : Nat
  patient_id : Nat
  diagnostic : String
  type_prise_en_charge : String
  date_debut : String
  nb_seances_prevues : Int
  tarif_par_seance : ℚ
  notes : String
  statut : String
  created_at : String
deriving DecidableEq

/-- Row of the `seances` table (src/main.py, init_db).  The flags
`effectuee` and `payee` are INTEGER columns (DEFAULT 0), so they are
modelled as Int, not Bool: the 0/1 discipline is an invariant of the
write paths, not of the schema. -/
structure Seance where
  id : Nat
  traitement_id : Nat
  date : String
  heure : String
  duree_minutes : Int
  cout : ℚ
  effectuee : Int
  payee : Int
  douleur_avant : Option Int
  douleur_apres : Option Int
  notes : String
  created_at : String
deriving DecidableEq

/-- The whole SQLite database (file kine.db): the three tables. -/
structure DB where
  patients : List Patient
  traitements : List Traitement
  seances : List Seance
deriving DecidableEq

/-- Python `int(b)` on a bool, as written at the update write
boundaries (`int(effectuee)`, `int(payee)`). -/
def pyInt (b : Bool) : Int := if b then 1 else 0

/-- Python truthiness of an `Optional[int]` argument: `if patient_id:`
is False for both None and 0. -/
def truthyNat (x : Option Nat) : Bool :=
  match x with
  | none => false
  | some v => v != 0

/-- Python truthiness of an `Optional[str]` argument: `if statut:` is
False for both None and the empty string. -/
def truthyStr (x : Option String) : Bool :=
  match x with
  | none => false
  | some s => s != ""

/-- SQLite `col LIKE '%pat%'` (case-insensitive substring match), used
by the patient search of list_patients. -/
def likeContains (hay pat : String) : Bool :=
  ((hay.toLower).splitOn (pat.toLower)).length != 1

/-- Comparator for `ORDER BY nom, prenom` (list_patients). -/
def patientLe (a b : Patient) : Bool :=
  decide (a.nom < b.nom) || (a.nom == b.nom && decide (a.prenom ≤ b.prenom))

/-- Comparator for `ORDER BY date_debut DESC, id DESC` (list_traitements). -/
def traitementLe (a b : Traitement) : Bool :=
  decide (b.date_debut < a.date_debut) || (a.date_debut == b.date_debut && b.id ≤ a.id)

/-- Comparator for `ORDER BY date ASC, heure ASC` (list_seances). -/
def seanceLe (a b : Seance) : Bool :=
  decide (a.date < b.date) || (a.date == b.date && decide (a.heure ≤ b.heure))

/-- list_patients(search): optional substring filter over
nom/prenom/telephone/cin, then ORDER BY nom, prenom. -/
def list_patients (db : DB) (search : String) : List Patient :=
  let rows :=
    if search != "" then
      db.patients.filter (fun p =>
        likeContains p.nom search || likeContains p.prenom search ||
        likeContains p.telephone search || likeContains p.cin search)
    else db.patients
  rows.mergeSort patientLe

/-- list_traitements(patient_id, statut): each WHERE clause is added
only when the argument is truthy (`if patient_id:`, `if statut:`),
then ORDER BY date_debut DESC, id DESC. -/
def list_traitements (db : DB) (patient_id : Option Nat) (statut : Option String) :
    List Traitement :=
  let rows := db.traitements
  let rows := if truthyNat patient_id then
      rows.filter (fun t => t.patient_id == patient_id.getD 0) else rows
  let rows := if truthyStr statut then
      rows.filter (fun t => t.statut == statut.getD "") else rows
  rows.mergeSort traitementLe

/-- list_seances(traitement_id, date_min, date_max): each WHERE clause
is added only when the argument is truthy, then ORDER BY date, heure. -/
def list_seances (db : DB) (traitement_id : Option Nat)
    (date_min date_max : Option String) : List Seance :=
  let rows := db.seances
  let rows := if truthyNat traitement_id then
      rows.filter (fun s => s.traitement_id == traitement_id.getD 0) else rows
  let rows := if truthyStr date_min then
      rows.filter (fun s => date_min.getD "" ≤ s.date) else rows
  let rows := if truthyStr date_max then
      rows.filter (fun s => s.date ≤ date_max.getD "") else rows
  rows.mergeSort seanceLe

/-! ## Aggregation engine (progression_traitement) -/

/-- A treatment row after progression_traitement added the columns
seances_effectuees, seances_payees, progress, montant_du. -/
structure TraitementEnrichi where
  base : Traitement
  seances_effectuees : Int
  seances_payees : Int
  progress : ℚ
  montant_du : ℚ
deriving DecidableEq

/-- `s_df.groupby("traitement_id")["effectuee"].sum()` looked up at
key `tid` with default 0: the sum of the `effectuee` column over the
sessions of treatment `tid`. -/
def sumEffectuees (s_df : List Seance) (tid : Nat) : Int :=
  ((s_df.filter (fun x => x.traitement_id == tid)).map (fun x => x.effectuee)).sum

/-- Same for the `payee` column. -/
def sumPayees (s_df : List Seance) (tid : Nat) : Int :=
  ((s_df.filter (fun x => x.traitement_id == tid)).map (fun x => x.payee)).sum

/-- progression_traitement (src/main.py lines 331-346): adds
seances_effectuees / seances_payees (groupby sums), progress (guarded
division by nb_seances_prevues: Python truthiness `if
r["nb_seances_prevues"]`) and montant_du =
(seances_effectuees - seances_payees) * tarif_par_seance.
The `if t_df.empty: return t_df` early exit coincides with mapping
over the empty list. -/
def progression_traitement (t_df : List Traitement) (s_df : List Seance) :
    List TraitementEnrichi :=
  t_df.map (fun t =>
    let eff := sumEffectuees s_df t.id
    let pay := sumPayees s_df t.id
    { base := t
      seances_effectuees := eff
      seances_payees := pay
      progress := if t.nb_seances_prevues ≠ 0 then (eff : ℚ) / (t.nb_seances_prevues : ℚ) else 0
      montant_du := ((eff - pay : Int) : ℚ) * t.tarif_par_seance })

/-- Number of sessions of treatment `tid` whose `effectuee` flag is
set (Python-truthy, i.e. nonzero). -/
def countEffectuees (s_df : List Seance) (tid : Nat) : Nat :=
  (s_df.filter (fun x => x.traitement_id == tid && x.effectuee != 0)).length

/-- Number of sessions of treatment `tid` whose `payee` flag is set. -/
def countPayees (s_df : List Seance) (tid : Nat) : Nat :=
  (s_df.filter (fun x => x.traitement_id == tid && x.payee != 0)).length

/-! ## Write layer (the run_exec call sites)

Each write is a single SQL statement.  AUTOINCREMENT primary keys are
modelled as max-id + 1; `PRAGMA foreign_keys = ON` together with the
schema's `ON DELETE CASCADE` makes the patient / treatment deletes
remove descendant rows in the same statement. -/

/-- Fresh AUTOINCREMENT id for `seances`. -/
def nextSeanceId (db : DB) : Nat :=
  db.seances.foldr (fun s m => max s.id m) 0 + 1

/-- Fresh AUTOINCREMENT id for `patients`. -/
def nextPatientId (db : DB) : Nat :=
  db.patients.foldr (fun p m => max p.id m) 0 + 1

/-- Fresh AUTOINCREMENT id for `traitements`. -/
def nextTraitementId (db : DB) : Nat :=
  db.traitements.foldr (fun t m => max t.id m) 0 + 1

/-- `INSERT INTO patients (nom, prenom, cin, date_naissance, telephone,
email, adresse, notes) VALUES (...)` — id auto-assigned, created_at
defaulted by the schema. -/
def insert_patient (db : DB) (nom prenom cin date_naissance telephone email adresse
    notes created_at : String) : DB × Nat :=
  let pid := nextPatientId db
  ({ db with patients := db.patients ++
      [⟨pid, nom, prenom, cin, date_naissance, telephone, email, adresse, notes,
        created_at⟩] }, pid)

/-- `UPDATE patients SET nom=?, prenom=?, cin=?, date_naissance=?,
telephone=?, email=?, adresse=?, notes=? WHERE id=?`. -/
def update_patient (db : DB) (pid : Nat) (nom prenom cin date_naissance telephone
    email adresse notes : String) : DB :=
  { db with patients := db.patients.map (fun p =>
      if p.id == pid then
        { p with
          nom := nom, prenom := prenom, cin := cin,
          date_naissance := date_naissance, telephone := telephone,
          email := email, adresse := adresse, notes := notes }
      else p) }

/-- `DELETE FROM patients WHERE id=?` with `ON DELETE CASCADE`:
the patient's treatments go, and the sessions of those treatments go
with them, all in the same statement. -/
def delete_patient (db : DB) (pid : Nat) : DB :=
  let deleted := db.traitements.filter (fun t => t.patient_id == pid)
  { patients := db.patients.filter (fun p => p.id != pid),
    traitements := db.traitements.filter (fun t => t.patient_id != pid),
    seances := db.seances.filter (fun s => !(deleted.any (fun t => t.id == s.traitement_id))) }

/-- `INSERT INTO traitements (patient_id, diagnostic,
type_prise_en_charge, date_debut, nb_seances_prevues, tarif_par_seance,
notes) VALUES (...)` — statut defaults to 'En cours'. -/
def insert_traitement (db : DB) (patient_id : Nat) (diagnostic tpec date_debut : String)
    (nb_prev : Int) (tarif : ℚ) (notes created_at : String) : DB × Nat :=
  let tid := nextTraitementId db
  ({ db with traitements := db.traitements ++
      [⟨tid, patient_id, diagnostic, tpec, date_debut, nb_prev, tarif, notes,
        "En cours", created_at⟩] }, tid)

/-- `UPDATE traitements SET diagnostic=?, type_prise_en_charge=?,
date_debut=?, nb_seances_prevues=?, tarif_par_seance=?, notes=?,
statut=? WHERE id=?`. -/
def update_traitement (db : DB) (tid : Nat) (diagnostic tpec date_debut : String)
    (nb_prev : Int) (tarif : ℚ) (notes statut : String) : DB :=
  { db with traitements := db.traitements.map (fun t =>
      if t.id == tid then
        { t with
          diagnostic := diagnostic, type_prise_en_charge := tpec,
          date_debut := date_debut, nb_seances_prevues := nb_prev,
          tarif_par_seance := tarif, notes := notes, statut := statut }
      else t) }

/-- `DELETE FROM traitements WHERE id=?` with cascade to `seances`. -/
def delete_traitement (db : DB) (tid : Nat) : DB :=
  { db with traitements := db.traitements.filter (fun t => t.id != tid),
            seances := db.seances.filter (fun s => s.traitement_id != tid) }

/-- `INSERT INTO seances (traitement_id, date, heure, duree_minutes,
cout, notes) VALUES (...)` (render_seances): effectuee and payee take
the schema default 0, the pain columns stay NULL.  No range check of
any kind is performed here. -/
def insert_seance (db : DB) (traitement_id : Nat) (d heure : String) (duree : Int)
    (cout : ℚ) (notes created_at : String) : DB × Nat :=
  let sid := nextSeanceId db
  ({ db with seances := db.seances ++
      [⟨sid, traitement_id, d, heure, duree, cout, 0, 0, none, none, notes,
        created_at⟩] }, sid)

/-- `UPDATE seances SET date=?, heure=?, duree_minutes=?, cout=?,
effectuee=?, payee=?, notes=? WHERE id=?` (render_seances): the two
checkbox booleans are stored as `int(effectuee)` / `int(payee)`. -/
def update_seance (db : DB) (sid : Nat) (d heure : String) (duree : Int) (cout : ℚ)
    (effectuee payee : Bool) (notes : String) : DB :=
  { db with seances := db.seances.map (fun s =>
      if s.id == sid then
        { s with
          date := d, heure := heure, duree_minutes := duree, cout := cout,
          effectuee := pyInt effectuee, payee := pyInt payee, notes := notes }
      else s) }

/-- `DELETE FROM seances WHERE id=?`. -/
def delete_seance (db : DB) (sid : Nat) : DB :=
  { db with seances := db.seances.filter (fun s => s.id != sid) }

/-- One write operation: every create / update / delete the views can
issue through run_exec. -/
inductive WriteOp where
  | insertPatient (nom prenom cin date_naissance telephone email adresse
      notes created_at : String)
  | updatePatient (pid : Nat) (nom prenom cin date_naissance telephone email adresse
      notes : String)
  | deletePatient (pid : Nat)
  | insertTraitement (patient_id : Nat) (diagnostic tpec date_debut : String)
      (nb_prev : Int) (tarif : ℚ) (notes created_at : String)
  | updateTraitement (tid : Nat) (diagnostic tpec date_debut : String)
      (nb_prev : Int) (tarif : ℚ) (notes statut : String)
  | deleteTraitement (tid : Nat)
  | insertSeance (traitement_id : Nat) (d heure : String) (duree : Int) (cout : ℚ)
      (notes created_at : String)
  | updateSeance (sid : Nat) (d heure : String) (duree : Int) (cout : ℚ)
      (effectuee payee : Bool) (notes : String)
  | deleteSeance (sid : Nat)

/-- Effect of a write operation on the database (the run_exec call). -/
def execWrite (db : DB) (w : WriteOp) : DB :=
  match w with
  | .insertPatient a b c d e f g h i => (insert_patient db a b c d e f g h i).1
  | .updatePatient pid a b c d e f g h => update_patient db pid a b c d e f g h
  | .deletePatient pid => delete_patient db pid
  | .insertTraitement p a b c n t e f => (insert_traitement db p a b c n t e f).1
  | .updateTraitement tid a b c n t e f => update_traitement db tid a b c n t e f
  | .deleteTraitement tid => delete_traitement db tid
  | .insertSeance t a b n c e f => (insert_seance db t a b n c e f).1
  | .updateSeance sid a b n c e p f => update_seance db sid a b n c e p f
  | .deleteSeance sid => delete_seance db sid

/-! ## Query cache (st.cache_data(ttl=10) and clear_caches) -/

/-- A memoized entry of an `st.cache_data` store: argument key, the
time it was stored, and the cached result. -/
structure CacheEntry (κ α : Type) where
  key : κ
  storedAt : Nat
  value : α
deriving DecidableEq

/-- The three memo stores, one per decorated list function, keyed by
that function's arguments. -/
structure Cache where
  patients : List (CacheEntry String (List Patient))
  traitements : List (CacheEntry (Option Nat × Option String) (List Traitement))
  seances : List (CacheEntry (Option Nat × (Option String × Option String)) (List Seance))
deriving DecidableEq

/-- Look a key up in a memo store at time `now`: a hit needs the same
key and an age within the ttl of 10 time units. -/
def lookupCache {κ α : Type} [DecidableEq κ] (entries : List (CacheEntry κ α))
    (now : Nat) (k : κ) : Option α :=
  (entries.find? (fun e => decide (e.key = k) && decide (now ≤ e.storedAt + 10))).map
    (fun e => e.value)

/-- clear_caches (src/main.py lines 305-308): `.clear()` on each of
the three cached functions empties every memoized entry. -/
def clear_caches (_c : Cache) : Cache :=
  { patients := [], traitements := [], seances := [] }

/-- list_patients through its st.cache_data wrapper: serve the memo
on a hit, otherwise compute from the store and memoize. -/
def cachedListPatients (db : DB) (c : Cache) (now : Nat) (search : String) :
    List Patient × Cache :=
  match lookupCache c.patients now search with
  | some v => (v, c)
  | none =>
      let v := list_patients db search
      (v, { c with patients := ⟨search, now, v⟩ :: c.patients })

/-- list_traitements through its st.cache_data wrapper. -/
def cachedListTraitements (db : DB) (c : Cache) (now : Nat)
    (patient_id : Option Nat) (statut : Option String) : List Traitement × Cache :=
  match lookupCache c.traitements now (patient_id, statut) with
  | some v => (v, c)
  | none =>
      let v := list_traitements db patient_id statut
      (v, { c with traitements := ⟨(patient_id, statut), now, v⟩ :: c.traitements })

/-- list_seances through its st.cache_data wrapper. -/
def cachedListSeances (db : DB) (c : Cache) (now : Nat) (traitement_id : Option Nat)
    (date_min date_max : Option String) : List Seance × Cache :=
  match lookupCache c.seances now (traitement_id, (date_min, date_max)) with
  | some v => (v, c)
  | none =>
      let v := list_seances db traitement_id date_min date_max
      (v, { c with seances := ⟨(traitement_id, (date_min, date_max)), now, v⟩ :: c.seances })

/-- The write pattern of every view: run_exec(...) immediately
followed by clear_caches(). -/
def write_and_clear (db : DB) (c : Cache) (w : WriteOp) : DB × Cache :=
  (execWrite db w, clear_caches c)

/-! ## Selection state and reconciliation -/

/-- The st.session_state keys of the hierarchical view: current level
and the selected id at each drill-down level. -/
structure SessionState where
  level : String
  current_patient_id : Option Nat
  current_traitement_id : Option Nat
  current_seance_id : Option Nat
deriving DecidableEq

/-- _go_to (src/main.py lines 904-909): sets `level`,
`current_patient_id` and `current_traitement_id` to its arguments
(`None` when a caller passes no value).  It never touches
`current_seance_id`. -/
def go_to (s : SessionState) (level : String) (patient_id : Option Nat)
    (traitement_id : Option Nat) : SessionState :=
  { s with
    level := level
    current_patient_id := patient_id
    current_traitement_id := traitement_id }

/-- view_manager first-run initialisation (src/main.py lines
1224-1229). -/
def initial_state : SessionState :=
  ⟨"dashboard", none, none, none⟩

/-- render_patients selection resolution (src/main.py lines 966-967):
`df[df["id"] == pid].iloc[0] if pid is not None and not df.empty and
not df[df["id"] == pid].empty else None` — the first row of the view
whose id equals the selected id, or None. -/
def resolve_patient_selection (df : List Patient) (pid : Option Nat) : Option Patient :=
  match pid with
  | none => none
  | some p => df.find? (fun r => r.id == p)

/-- render_traitements selection resolution (src/main.py lines
1068-1073), same shape at the treatment level. -/
def resolve_traitement_selection (t_df : List Traitement) (tid : Option Nat) :
    Option Traitement :=
  match tid with
  | none => none
  | some t => t_df.find? (fun r => r.id == t)

/-- render_seances selection resolution (src/main.py lines 1170-1175),
same shape at the session level. -/
def resolve_seance_selection (s_df : List Seance) (sid : Option Nat) : Option Seance :=
  match sid with
  | none => none
  | some i => s_df.find? (fun r => r.id == i)

/-! ## Form boundary of render_seances -/

/-- The value delivered by `st.number_input("Durée (minutes)",
min_value=15, max_value=240, value=45)`: the widget never yields a
value outside [min_value, max_value], modelled as clamping the raw
user input into that range. -/
def number_input_value (mn mx raw : Int) : Int := max mn (min mx raw)

/-- The add-session form of render_seances (src/main.py lines
1144-1165): the duration comes from the bounded number_input widget,
then the INSERT runs with no further validation. -/
def render_seances_add (db : DB) (tid : Nat) (d heure : String) (raw_duree : Int)
    (cout : ℚ) (notes created_at : String) : DB × Nat :=
  insert_seance db tid d heure (number_input_value 15 240 raw_duree) cout notes created_at

/-- The update branch of the edit-session form of render_seances
(src/main.py lines 1200-1216): run_exec(UPDATE ... WHERE id=?) and
then `st.success("Séance mise à jour.")`, unconditionally — the
message is shown whether or not any row matched the id. -/
def render_seances_update (db : DB) (sid : Nat) (d heure : String) (duree : Int)
    (cout : ℚ) (effectuee payee : Bool) (notes : String) : DB × String :=
  (update_seance db sid d heure duree cout effectuee payee notes, "Séance mise à jour.")

/-- The delete branch of the edit-session form of render_seances
(src/main.py lines 1217-1221): run_exec(DELETE ... WHERE id=?) and
then `st.success("Séance supprimée.")`, unconditionally. -/
def render_seances_delete (db : DB) (sid : Nat) : DB × String :=
  (delete_seance db sid, "Séance supprimée.")

/-- The 0/1 discipline every write path keeps on the two flag columns
of `seances`. -/
def flags01 (db : DB) : Prop :=
  ∀ s ∈ db.seances, (s.effectuee = 0 ∨ s.effectuee = 1) ∧ (s.payee = 0 ∨ s.payee = 1)

/-! ## Concrete rows used to evaluate the development -/

/-- Example patient. -/
def pEx1 : Patient := ⟨1, "Idrissi", "Amina", "", "", "", "", "", "", ""⟩

/-- Second example patient. -/
def pEx2 : Patient := ⟨2, "Benali", "", "", "", "", "", "", "", ""⟩

/-- Example treatment of patient 1: 10 planned sessions at 200 MAD. -/
def tEx1 : Traitement := ⟨1, 1, "Lombalgie", "", "2025-01-01", 10, 200, "", "En cours", ""⟩

/-- Example treatment of patient 2 with the default tariff 0. -/
def tEx2 : Traitement := ⟨2, 2, "", "", "2025-01-02", 10, 0, "", "En cours", ""⟩

/-- Example treatment with nb_seances_prevues = 0. -/
def tEx0 : Traitement := ⟨3, 1, "", "", "2025-01-03", 0, 50, "", "En cours", ""⟩

/-- A performed, unpaid session of treatment 1. -/
def sDone : Seance := ⟨1, 1, "2025-01-02", "", 45, 0, 1, 0, none, none, "", ""⟩

/-- A paid, not performed session of treatment 1. -/
def sPaid1 : Seance := ⟨2, 1, "2025-01-03", "", 45, 0, 0, 1, none, none, "", ""⟩

/-- A second paid, not performed session of treatment 1. -/
def sPaid2 : Seance := ⟨3, 1, "2025-01-04", "", 45, 0, 0, 1, none, none, "", ""⟩

/-- A paid, not performed session of treatment 2. -/
def sT2 : Seance := ⟨4, 2, "2025-01-05", "", 45, 0, 0, 1, none, none, "", ""⟩

/-- Example database tying the rows above together. -/
def dbEx : DB := ⟨[pEx1, pEx2], [tEx1, tEx2], [sDone, sPaid1, sPaid2, sT2]⟩

/-! # Theorems -/

/-- Summing an Int-valued 0/1 column over the sessions of a treatment
counts the sessions of that treatment where the column is nonzero. -/
lemma sum_proj_eq_count (f : Seance → Int) (s_df : List Seance) (tid : Nat)
    (hf : ∀ s ∈ s_df, f s = 0 ∨ f s = 1) :
    ((s_df.filter (fun x => x.traitement_id == tid)).map f).sum
      = (((s_df.filter (fun x => x.traitement_id == tid && f x != 0)).length : Nat) : Int) := by
  induction s_df with
  | nil => rfl
  | cons a l ih =>
    have ha := hf a (List.mem_cons_self a l)
    have hl : ∀ s ∈ l, f s = 0 ∨ f s = 1 := fun s hs => hf s (List.mem_cons_of_mem a hs)
    by_cases htid : a.traitement_id = tid
    · rcases ha with h0 | h1
      · simp [List.filter_cons, htid, h0, ih hl]
      · simp [List.filter_cons, htid, h1, ih hl]
        ring
    · simp [List.filter_cons, htid, ih hl]

/-- The groupby-sum of the `effectuee` column is the count of
performed sessions, given the 0/1 discipline. -/
lemma sumEffectuees_eq_count (s_df : List Seance) (tid : Nat)
    (hf : ∀ s ∈ s_df, s.effectuee = 0 ∨ s.effectuee = 1) :
    sumEffectuees s_df tid = (countEffectuees s_df tid : Int) :=
  sum_proj_eq_count (fun x => x.effectuee) s_df tid hf

/-- The groupby-sum of the `payee` column is the count of paid
sessions, given the 0/1 discipline. -/
lemma sumPayees_eq_count (s_df : List Seance) (tid : Nat)
    (hf : ∀ s ∈ s_df, s.payee = 0 ∨ s.payee = 1) :
    sumPayees s_df tid = (countPayees s_df tid : Int) :=
  sum_proj_eq_count (fun x => x.payee) s_df tid hf

/-- C1 (amended): for every treatment row enriched by
progression_traitement, montant_du equals
(sessions done − sessions paid) × tarif_par_seance, where the two
figures count the treatment's sessions with the performed / paid flag
set (given the 0/1 flag discipline of the write paths); the result is
negative whenever more sessions are paid than performed **and the
tariff is positive** (with the default tariff 0 the product is 0, not
negative). -/
theorem C1_montant_du (t_df : List Traitement) (s_df : List Seance)
    (hf : ∀ s ∈ s_df, (s.effectuee = 0 ∨ s.effectuee = 1) ∧ (s.payee = 0 ∨ s.payee = 1)) :
    ∀ e ∈ progression_traitement t_df s_df,
      e.montant_du = ((countEffectuees s_df e.base.id : Int) -
          (countPayees s_df e.base.id : Int) : Int) * e.base.tarif_par_seance
      ∧ (countEffectuees s_df e.base.id < countPayees s_df e.base.id →
          0 < e.base.tarif_par_seance → e.montant_du < 0) := by
  intro e he
  simp only [progression_traitement, List.mem_map] at he
  obtain ⟨t, _ht, rfl⟩ := he
  have h1 : sumEffectuees s_df t.id = (countEffectuees s_df t.id : Int) :=
    sumEffectuees_eq_count s_df t.id (fun s hs => (hf s hs).1)
  have h2 : sumPayees s_df t.id = (countPayees s_df t.id : Int) :=
    sumPayees_eq_count s_df t.id (fun s hs => (hf s hs).2)
  refine ⟨?_, ?_⟩
  · dsimp only
    rw [h1, h2]
  · intro hlt htar
    dsimp only at hlt htar ⊢
    rw [h1, h2]
    apply mul_neg_of_neg_of_pos _ htar
    have hneg : (countEffectuees s_df t.id : Int) - (countPayees s_df t.id : Int) < 0 := by
      omega
    exact_mod_cast hneg

/-- C1 witness: treatment 1 (tariff 200) with one performed and two
paid sessions: montant_du = (1 − 2) × 200 = −200 < 0. -/
theorem C1_witness :
    (∀ s ∈ [sDone, sPaid1, sPaid2],
        (s.effectuee = 0 ∨ s.effectuee = 1) ∧ (s.payee = 0 ∨ s.payee = 1))
    ∧ (⟨tEx1, 1, 2, 1/10, -200⟩ : TraitementEnrichi) ∈
        progression_traitement [tEx1] [sDone, sPaid1, sPaid2]
    ∧ ((⟨tEx1, 1, 2, 1/10, -200⟩ : TraitementEnrichi).montant_du =
          ((countEffectuees [sDone, sPaid1, sPaid2] tEx1.id : Int) -
            (countPayees [sDone, sPaid1, sPaid2] tEx1.id : Int) : Int) *
            tEx1.tarif_par_seance
        ∧ (countEffectuees [sDone, sPaid1, sPaid2] tEx1.id <
              countPayees [sDone, sPaid1, sPaid2] tEx1.id →
            0 < tEx1.tarif_par_seance →
            (⟨tEx1, 1, 2, 1/10, -200⟩ : TraitementEnrichi).montant_du < 0)) :=
  ⟨by decide,
    by simp [progression_traitement, sumEffectuees, sumPayees, tEx1, sDone, sPaid1, sPaid2],
    C1_montant_du [tEx1] [sDone, sPaid1, sPaid2] (by decide) _
      (by simp [progression_traitement, sumEffectuees, sumPayees, tEx1, sDone, sPaid1, sPaid2])⟩

/-- C1 counterexample to the claim as stated: treatment 2 has the
default tariff 0 and one paid, zero performed sessions; sessions_paid
> sessions_done, yet montant_du = (0 − 1) × 0 = 0 is NOT negative, so
"the result is negative whenever sessions_paid > sessions_done" fails
without the positive-tariff assumption. -/
theorem C1_counterexample :
    countEffectuees [sT2] 2 < countPayees [sT2] 2
    ∧ progression_traitement [tEx2] [sT2] = [⟨tEx2, 0, 1, 0, 0⟩]
    ∧ ¬ ((⟨tEx2, 0, 1, 0, 0⟩ : TraitementEnrichi).montant_du < 0) :=
  ⟨by decide, by simp [progression_traitement, sumEffectuees, sumPayees, tEx2, sT2],
    by norm_num⟩

/-- C2 (confirmed): for every treatment row enriched by
progression_traitement, progress equals sessions_done /
nb_seances_prevues when nb_seances_prevues > 0 and equals 0 when
nb_seances_prevues = 0: the division sits under the guard
`if r["nb_seances_prevues"]`, so the zero case never divides. -/
theorem C2_progress_guard (t_df : List Traitement) (s_df : List Seance)
    (hf : ∀ s ∈ s_df, s.effectuee = 0 ∨ s.effectuee = 1) :
    ∀ e ∈ progression_traitement t_df s_df,
      (0 < e.base.nb_seances_prevues →
        e.progress = (countEffectuees s_df e.base.id : ℚ) / (e.base.nb_seances_prevues : ℚ))
      ∧ (e.base.nb_seances_prevues = 0 → e.progress = 0) := by
  intro e he
  simp only [progression_traitement, List.mem_map] at he
  obtain ⟨t, _ht, rfl⟩ := he
  have h1 := sumEffectuees_eq_count s_df t.id hf
  refine ⟨?_, ?_⟩
  · intro hpos
    dsimp only at hpos ⊢
    rw [if_pos (by omega : t.nb_seances_prevues ≠ 0), h1]
    push_cast
    ring
  · intro h0
    dsimp only at h0 ⊢
    rw [h0]
    simp

/-- C2 witness: with treatments [tEx1 (10 planned), tEx0 (0 planned)]
and the single performed session sDone, tEx1 gets progress 1/10 and
tEx0 gets progress 0 through the guard. -/
theorem C2_witness :
    (∀ s ∈ [sDone], s.effectuee = 0 ∨ s.effectuee = 1)
    ∧ (⟨tEx1, 1, 0, 1/10, 200⟩ : TraitementEnrichi) ∈
        progression_traitement [tEx1, tEx0] [sDone]
    ∧ (⟨tEx0, 0, 0, 0, 0⟩ : TraitementEnrichi) ∈
        progression_traitement [tEx1, tEx0] [sDone]
    ∧ ((0 < tEx1.nb_seances_prevues →
          (⟨tEx1, 1, 0, 1/10, 200⟩ : TraitementEnrichi).progress =
            (countEffectuees [sDone] tEx1.id : ℚ) / (tEx1.nb_seances_prevues : ℚ))
        ∧ (tEx1.nb_seances_prevues = 0 →
          (⟨tEx1, 1, 0, 1/10, 200⟩ : TraitementEnrichi).progress = 0))
    ∧ ((0 < tEx0.nb_seances_prevues →
          (⟨tEx0, 0, 0, 0, 0⟩ : TraitementEnrichi).progress =
            (countEffectuees [sDone] tEx0.id : ℚ) / (tEx0.nb_seances_prevues : ℚ))
        ∧ (tEx0.nb_seances_prevues = 0 →
          (⟨tEx0, 0, 0, 0, 0⟩ : TraitementEnrichi).progress = 0)) :=
  ⟨by decide,
    by simp [progression_traitement, sumEffectuees, sumPayees, tEx1, tEx0, sDone],
    by simp [progression_traitement, sumEffectuees, sumPayees, tEx1, tEx0, sDone],
    C2_progress_guard [tEx1, tEx0] [sDone] (by decide) ⟨tEx1, 1, 0, 1/10, 200⟩
      (by simp [progression_traitement, sumEffectuees, sumPayees, tEx1, tEx0, sDone]),
    C2_progress_guard [tEx1, tEx0] [sDone] (by decide) ⟨tEx0, 0, 0, 0, 0⟩
      (by simp [progression_traitement, sumEffectuees, sumPayees, tEx1, tEx0, sDone])⟩

/-- C3 (confirmed): deleting a patient removes, in the single cascaded
DELETE statement, the patient, every treatment owned by them and every
session of those treatments; if the store had no orphan rows before,
none remain afterwards — no surviving treatment references the deleted
patient, every surviving treatment still has its patient, and every
surviving session still has its treatment. -/
theorem C3_delete_patient_cascade (db : DB) (pid : Nat)
    (hts : ∀ t ∈ db.traitements, ∃ p ∈ db.patients, p.id = t.patient_id)
    (hss : ∀ s ∈ db.seances, ∃ t ∈ db.traitements, t.id = s.traitement_id) :
    (∀ p ∈ (delete_patient db pid).patients, p.id ≠ pid)
    ∧ (∀ t ∈ (delete_patient db pid).traitements, t.patient_id ≠ pid)
    ∧ (∀ t ∈ (delete_patient db pid).traitements,
        ∃ p ∈ (delete_patient db pid).patients, p.id = t.patient_id)
    ∧ (∀ s ∈ (delete_patient db pid).seances,
        ∃ t ∈ (delete_patient db pid).traitements, t.id = s.traitement_id) := by
  refine ⟨?_, ?_, ?_, ?_⟩
  · intro p hp
    simp only [delete_patient, List.mem_filter, bne_iff_ne, ne_eq] at hp
    exact hp.2
  · intro t ht
    simp only [delete_patient, List.mem_filter, bne_iff_ne, ne_eq] at ht
    exact ht.2
  · intro t ht
    simp only [delete_patient, List.mem_filter, bne_iff_ne, ne_eq] at ht ⊢
    obtain ⟨p, hp, hpid⟩ := hts t ht.1
    exact ⟨p, ⟨hp, by omega⟩, hpid⟩
  · intro s hs
    simp only [delete_patient, List.mem_filter] at hs
    obtain ⟨hs1, hs2⟩ := hs
    obtain ⟨t, ht, htid⟩ := hss s hs1
    have hnot : t.patient_id ≠ pid := by
      intro hcontra
      have : (db.traitements.filter (fun t => t.patient_id == pid)).any
          (fun t => t.id == s.traitement_id) = true := by
        simp only [List.any_eq_true, List.mem_filter, beq_iff_eq]
        exact ⟨t, ⟨ht, hcontra⟩, htid⟩
      simp [this] at hs2
    simp only [delete_patient, List.mem_filter, bne_iff_ne, ne_eq]
    exact ⟨t, ⟨ht, hnot⟩, htid⟩

/-- C3 witness: deleting patient 1 from the example database removes
treatment 1 and its three sessions while patient 2, treatment 2 and
session sT2 survive with intact references. -/
theorem C3_witness :
    (∀ t ∈ dbEx.traitements, ∃ p ∈ dbEx.patients, p.id = t.patient_id)
    ∧ (∀ s ∈ dbEx.seances, ∃ t ∈ dbEx.traitements, t.id = s.traitement_id)
    ∧ ((∀ p ∈ (delete_patient dbEx 1).patients, p.id ≠ 1)
      ∧ (∀ t ∈ (delete_patient dbEx 1).traitements, t.patient_id ≠ 1)
      ∧ (∀ t ∈ (delete_patient dbEx 1).traitements,
          ∃ p ∈ (delete_patient dbEx 1).patients, p.id = t.patient_id)
      ∧ (∀ s ∈ (delete_patient dbEx 1).seances,
          ∃ t ∈ (delete_patient dbEx 1).traitements, t.id = s.traitement_id)) :=
  ⟨by decide, by decide, C3_delete_patient_cascade dbEx 1 (by decide) (by decide)⟩

/-- C4 (confirmed): at each of the three levels, when the selected id
is absent from the view's rows the selection resolves to none ("none
selected"), and whenever it resolves to a row, that row carries
exactly the selected id — it never aliases to a different row. -/
theorem C4_selection_reconciliation :
    ((∀ (df : List Patient) (p : Nat), (∀ r ∈ df, r.id ≠ p) →
        resolve_patient_selection df (some p) = none)
      ∧ (∀ (df : List Patient) (pid : Option Nat) (r : Patient),
          resolve_patient_selection df pid = some r → pid = some r.id))
    ∧ ((∀ (t_df : List Traitement) (t : Nat), (∀ r ∈ t_df, r.id ≠ t) →
        resolve_traitement_selection t_df (some t) = none)
      ∧ (∀ (t_df : List Traitement) (tid : Option Nat) (r : Traitement),
          resolve_traitement_selection t_df tid = some r → tid = some r.id))
    ∧ ((∀ (s_df : List Seance) (i : Nat), (∀ r ∈ s_df, r.id ≠ i) →
        resolve_seance_selection s_df (some i) = none)
      ∧ (∀ (s_df : List Seance) (sid : Option Nat) (r : Seance),
          resolve_seance_selection s_df sid = some r → sid = some r.id)) := by
  refine ⟨⟨?_, ?_⟩, ⟨?_, ?_⟩, ⟨?_, ?_⟩⟩
  · intro df p h
    simp only [resolve_patient_selection, List.find?_eq_none, beq_iff_eq]
    exact h
  · intro df pid r hres
    cases pid with
    | none => simp [resolve_patient_selection] at hres
    | some p =>
        have hpred := List.find?_some hres
        simp only [beq_iff_eq] at hpred
        rw [hpred]
  · intro t_df t h
    simp only [resolve_traitement_selection, List.find?_eq_none, beq_iff_eq]
    exact h
  · intro t_df tid r hres
    cases tid with
    | none => simp [resolve_traitement_selection] at hres
    | some t =>
        have hpred := List.find?_some hres
        simp only [beq_iff_eq] at hpred
        rw [hpred]
  · intro s_df i h
    simp only [resolve_seance_selection, List.find?_eq_none, beq_iff_eq]
    exact h
  · intro s_df sid r hres
    cases sid with
    | none => simp [resolve_seance_selection] at hres
    | some i =>
        have hpred := List.find?_some hres
        simp only [beq_iff_eq] at hpred
        rw [hpred]

/-- C4 witness: with single-row views, a selected id that the view no
longer contains collapses to none at each of the three levels. -/
theorem C4_witness :
    ((∀ r ∈ [pEx1], r.id ≠ 2) ∧ resolve_patient_selection [pEx1] (some 2) = none)
    ∧ ((∀ r ∈ [tEx1], r.id ≠ 5) ∧ resolve_traitement_selection [tEx1] (some 5) = none)
    ∧ ((∀ r ∈ [sDone], r.id ≠ 9) ∧ resolve_seance_selection [sDone] (some 9) = none) :=
  ⟨⟨by decide, C4_selection_reconciliation.1.1 [pEx1] 2 (by decide)⟩,
    ⟨by decide, C4_selection_reconciliation.2.1.1 [tEx1] 5 (by decide)⟩,
    ⟨by decide, C4_selection_reconciliation.2.2.1 [sDone] 9 (by decide)⟩⟩

/-- C5 (amended): every _go_to transition sets the level and the
patient- and treatment-level selections to exactly the values passed
(None when the caller passes nothing), but it leaves the session-level
selection untouched: `current_seance_id` survives every navigation and
is only reset when the Sessions view next renders with no row
selected. -/
theorem C5_go_to_behaviour (s : SessionState) (level : String)
    (patient_id traitement_id : Option Nat) :
    go_to s level patient_id traitement_id =
      ⟨level, patient_id, traitement_id, s.current_seance_id⟩ :=
  rfl

/-- C5 counterexample to the claim as stated: from the Sessions level
with session 7 selected, navigating into Treatments(1) — which the
claim says clears every descendant selection, the session's included —
leaves `current_seance_id` at 7 instead of None. -/
theorem C5_counterexample :
    (go_to ⟨"seances", some 1, some 2, some 7⟩ "traitements" (some 1) none).current_seance_id
      = some 7 :=
  rfl

/-- C6 counterexample to the claim as stated: the write boundary
performs no duration validation — there is no ValidationError anywhere
in the program — so INSERTing a session with duree_minutes = 10 into
an empty store happily writes the row instead of rejecting it. -/
theorem C6_counterexample :
    ((insert_seance ⟨[], [], []⟩ 1 "2025-01-01" "10:00" 10 0 "" "").1).seances
      = [⟨1, 1, "2025-01-01", "10:00", 10, 0, 0, 0, none, none, "", ""⟩] := by
  decide

/-- C6 (amended): an out-of-range duration such as 10 cannot reach the
store through the add-session form, because the number_input widget
constrains the submitted value to [15, 240]; every session row the
form adds has its duration in that range (rows already present are
untouched).  The store itself performs no check. -/
theorem C6_form_duration_bounds (db : DB) (tid : Nat) (d heure : String)
    (raw_duree : Int) (cout : ℚ) (notes created_at : String) :
    ∀ s ∈ ((render_seances_add db tid d heure raw_duree cout notes created_at).1).seances,
      s ∈ db.seances ∨ (15 ≤ s.duree_minutes ∧ s.duree_minutes ≤ 240) := by
  intro s hs
  simp only [render_seances_add, insert_seance, List.mem_append, List.mem_singleton] at hs
  rcases hs with h | h
  · exact Or.inl h
  · refine Or.inr ?_
    rw [h]
    refine ⟨le_max_left _ _, ?_⟩
    exact max_le (by norm_num) (min_le_left _ _)

/-- C6 witness: submitting a raw duration of 10 through the form, the
widget delivers 15 and the row written to the empty store has
duration 15, inside the allowed range. -/
theorem C6_witness :
    (⟨1, 1, "2025-01-01", "10:00", 15, 0, 0, 0, none, none, "", ""⟩ : Seance) ∈
      ((render_seances_add ⟨[], [], []⟩ 1 "2025-01-01" "10:00" 10 0 "" "").1).seances
    ∧ ((⟨1, 1, "2025-01-01", "10:00", 15, 0, 0, 0, none, none, "", ""⟩ : Seance) ∈
        (⟨[], [], []⟩ : DB).seances
      ∨ (15 ≤ (⟨1, 1, "2025-01-01", "10:00", 15, 0, 0, 0, none, none, "", ""⟩ : Seance).duree_minutes
        ∧ (⟨1, 1, "2025-01-01", "10:00", 15, 0, 0, 0, none, none, "", ""⟩ : Seance).duree_minutes ≤ 240)) :=
  ⟨by decide,
    C6_form_duration_bounds ⟨[], [], []⟩ 1 "2025-01-01" "10:00" 10 0 "" ""
      ⟨1, 1, "2025-01-01", "10:00", 15, 0, 0, 0, none, none, "", ""⟩ (by decide)⟩

/-- C7 (confirmed): every write path runs run_exec and then
clear_caches, which empties all three memo stores; a cached read
issued right after therefore misses the cache and recomputes from the
post-write store — it can never serve pre-write data, whatever the
write, the cache contents or the query arguments were. -/
theorem C7_write_invalidates (db : DB) (c : Cache) (w : WriteOp) (now : Nat)
    (search : String) (patient_id : Option Nat) (statut : Option String)
    (traitement_id : Option Nat) (date_min date_max : Option String) :
    (cachedListPatients (write_and_clear db c w).1 (write_and_clear db c w).2
        now search).1 = list_patients (execWrite db w) search
    ∧ (cachedListTraitements (write_and_clear db c w).1 (write_and_clear db c w).2
        now patient_id statut).1 = list_traitements (execWrite db w) patient_id statut
    ∧ (cachedListSeances (write_and_clear db c w).1 (write_and_clear db c w).2
        now traitement_id date_min date_max).1
          = list_seances (execWrite db w) traitement_id date_min date_max :=
  ⟨rfl, rfl, rfl⟩

/-- C8 counterexample to the claim as stated: updating session id 99
in a store that only holds session 1 changes nothing — and the view
reports the ordinary success message, exactly as for a real update.
No not-found signal of any kind is surfaced: the absent id is
silently ignored. -/
theorem C8_counterexample :
    render_seances_update ⟨[], [], [sDone]⟩ 99 "2025-01-02" "" 45 0 false false ""
      = (⟨[], [], [sDone]⟩, "Séance mise à jour.") := by
  decide

/-- C8 (amended): an update or delete referencing an id absent from
the store performs no state change, but no explicit not-found signal
reaches the caller: the UPDATE / DELETE matches zero rows and the view
unconditionally reports the same success message as a real write. -/
theorem C8_absent_id_silent (db : DB) (sid : Nat)
    (h : ∀ s ∈ db.seances, s.id ≠ sid) (d heure : String) (duree : Int) (cout : ℚ)
    (effectuee payee : Bool) (notes : String) :
    render_seances_update db sid d heure duree cout effectuee payee notes
      = (db, "Séance mise à jour.")
    ∧ render_seances_delete db sid = (db, "Séance supprimée.") := by
  have hmap : ∀ (l : List Seance), (∀ s ∈ l, s.id ≠ sid) →
      l.map (fun s =>
        if s.id == sid then
          { s with
            date := d, heure := heure, duree_minutes := duree, cout := cout,
            effectuee := pyInt effectuee, payee := pyInt payee, notes := notes }
        else s) = l := by
    intro l
    induction l with
    | nil => intro _; rfl
    | cons a t ih =>
        intro hl
        have ha : a.id ≠ sid := hl a (List.mem_cons_self a t)
        rw [List.map_cons, if_neg (by simpa using ha),
          ih (fun s hs => hl s (List.mem_cons_of_mem a hs))]
  constructor
  · simp only [render_seances_update, update_seance, hmap db.seances h]
  · have hfil : db.seances.filter (fun s => s.id != sid) = db.seances :=
      List.filter_eq_self.mpr (fun s hs => by simpa using h s hs)
    simp only [render_seances_delete, delete_seance, hfil]

/-- C8 witness: with only session 1 in the store, updating and
deleting session id 99 both leave the store untouched and report the
generic success messages. -/
theorem C8_witness :
    (∀ s ∈ (⟨[], [], [sDone]⟩ : DB).seances, s.id ≠ 99)
    ∧ (render_seances_update ⟨[], [], [sDone]⟩ 99 "2025-01-03" "09:00" 30 0 true true "x"
          = (⟨[], [], [sDone]⟩, "Séance mise à jour.")
      ∧ render_seances_delete ⟨[], [], [sDone]⟩ 99 = (⟨[], [], [sDone]⟩, "Séance supprimée.")) :=
  ⟨by decide,
    C8_absent_id_silent ⟨[], [], [sDone]⟩ 99 (by decide) "2025-01-03" "09:00" 30 0 true true "x"⟩

/-- C9 (confirmed): every write path keeps the performed / paid flags
in {0, 1} — inserts rely on the schema default 0 and updates store
int(bool) — and under that invariant the aggregation's groupby-sum of
each flag column equals the count of the treatment's sessions with
that flag set. -/
theorem C9_flags_01_invariant :
    (∀ (db : DB) (w : WriteOp), flags01 db → flags01 (execWrite db w))
    ∧ (∀ (s_df : List Seance) (tid : Nat),
        (∀ s ∈ s_df, (s.effectuee = 0 ∨ s.effectuee = 1) ∧ (s.payee = 0 ∨ s.payee = 1)) →
        sumEffectuees s_df tid = (countEffectuees s_df tid : Int)
        ∧ sumPayees s_df tid = (countPayees s_df tid : Int)) := by
  constructor
  · intro db w hdb
    cases w with
    | insertPatient a b c d e f g h i => exact hdb
    | updatePatient pid a b c d e f g h => exact hdb
    | deletePatient pid =>
        intro s hs
        simp only [execWrite, delete_patient, List.mem_filter] at hs
        exact hdb s hs.1
    | insertTraitement p a b c n t e f => exact hdb
    | updateTraitement tid a b c n t e f => exact hdb
    | deleteTraitement tid =>
        intro s hs
        simp only [execWrite, delete_traitement, List.mem_filter] at hs
        exact hdb s hs.1
    | insertSeance t a b n c e f =>
        intro s hs
        simp only [execWrite, insert_seance, List.mem_append, List.mem_singleton] at hs
        rcases hs with hmem | hnew
        · exact hdb s hmem
        · rw [hnew]
          exact ⟨Or.inl rfl, Or.inl rfl⟩
    | updateSeance sid a b n c e p f =>
        intro s hs
        simp only [execWrite, update_seance, List.mem_map] at hs
        obtain ⟨a', ha', rfl⟩ := hs
        by_cases hid : a'.id == sid
        · rw [if_pos hid]
          cases e <;> cases p <;> simp [pyInt]
        · rw [if_neg hid]
          exact hdb a' ha'
    | deleteSeance sid =>
        intro s hs
        simp only [execWrite, delete_seance, List.mem_filter] at hs
        exact hdb s hs.1
  · intro s_df tid hff
    exact ⟨sumEffectuees_eq_count s_df tid (fun s hs => (hff s hs).1),
      sumPayees_eq_count s_df tid (fun s hs => (hff s hs).2)⟩

/-- C9 witness: the example store satisfies the 0/1 discipline, a
checkbox-driven update preserves it, and on its sessions the
groupby-sums equal the true/paid counts for treatment 1. -/
theorem C9_witness :
    flags01 dbEx
    ∧ flags01 (execWrite dbEx (WriteOp.updateSeance 1 "2025-01-02" "" 45 0 true false "n"))
    ∧ (sumEffectuees dbEx.seances 1 = (countEffectuees dbEx.seances 1 : Int)
      ∧ sumPayees dbEx.seances 1 = (countPayees dbEx.seances 1 : Int)) :=
  ⟨by unfold flags01; decide,
    C9_flags_01_invariant.1 dbEx (WriteOp.updateSeance 1 "2025-01-02" "" 45 0 true false "n")
      (by unfold flags01; decide),
    C9_flags_01_invariant.2 dbEx.seances 1 (by decide)⟩

/-- C10 (confirmed): the read filters test truthiness, not presence:
list_traitements called with patient_id = 0 or statut = "" behaves
exactly as if that filter had not been passed at all, and likewise
list_seances with traitement_id = 0 — the filter is silently disabled
and rows of every owner / status are returned instead of the empty
result a faithful equality filter would give. -/
theorem C10_truthy_filter_disabled :
    (∀ (db : DB) (statut : Option String),
        list_traitements db (some 0) statut = list_traitements db none statut)
    ∧ (∀ (db : DB) (patient_id : Option Nat),
        list_traitements db patient_id (some "") = list_traitements db patient_id none)
    ∧ (∀ (db : DB) (date_min date_max : Option String),
        list_seances db (some 0) date_min date_max = list_seances db none date_min date_max)
    ∧ list_traitements ⟨[], [tEx2], []⟩ (some 0) none = [tEx2] := by
  refine ⟨fun _ _ => rfl, fun _ _ => rfl, fun _ _ _ => rfl, ?_⟩
  simp [list_traitements, truthyNat, truthyStr, List.mergeSort]

end Kine
